import Mathlib

/-!
# Verification of the trading bot's execution and position-management engine

This file gives a shallow embedding, in Lean 4, of the core components of the
trading bot (risk manager, position lifecycle strategy, paper executor,
RPC sender retry/confirmation logic, and position-state serialization), and
proves or refutes the frozen specification claims about them.

Modelling conventions:
* Python `float` values are modelled as exact rationals (`ℚ`); the claims under
  study are order/algebraic properties of the arithmetic the code performs.
* Python `int` is modelled as `ℤ` (or `ℕ` where the source value is a count).
* Fallible code (raising `ValueError` / `ZeroDivisionError` / RPC exceptions)
  is modelled with `Option` / explicit error constructors.
* Python `datetime` values are modelled by a `DateTime` record of calendar
  fields; `isoformat` / `fromisoformat` are modelled concretely on the
  fragment of ISO-8601 that `datetime.isoformat` emits.
* In-memory mutable state (`RiskManagerImpl`, `PaperExecutor`, positions) is
  modelled by explicit state records threaded through the functions.
-/

namespace TradingBot

/-! ## Calendar timestamps (`datetime` values, naive, as produced by
`datetime.now()` / stored in `PositionState.entry_time`). -/

structure DateTime where
  year : ℕ
  month : ℕ
  day : ℕ
  hour : ℕ
  minute : ℕ
  second : ℕ
  microsecond : ℕ
deriving DecidableEq, Repr

/-- Field ranges of a real `datetime` value. -/
def DateTime.Valid (d : DateTime) : Prop :=
  d.year < 10000 ∧ 1 ≤ d.month ∧ d.month ≤ 12 ∧ 1 ≤ d.day ∧ d.day ≤ 31 ∧
    d.hour < 24 ∧ d.minute < 60 ∧ d.second < 60 ∧ d.microsecond < 1000000

instance (d : DateTime) : Decidable d.Valid := by
  unfold DateTime.Valid; infer_instance

/-- Seconds-since-epoch view of a naive `datetime`, used only to model
`datetime` subtraction (`now - entry_time` compared against a `timedelta`).
Days are counted via the standard civil-calendar formula. -/
def DateTime.daysFromCivil (y m d : ℕ) : ℤ :=
  let y' : ℤ := (y : ℤ) - (if m ≤ 2 then 1 else 0)
  let era : ℤ := (if y' ≥ 0 then y' else y' - 399) / 400
  let yoe : ℤ := y' - era * 400
  let mp : ℤ := ((m : ℤ) + 9) % 12
  let doy : ℤ := (153 * mp + 2) / 5 + (d : ℤ) - 1
  let doe : ℤ := yoe * 365 + yoe / 4 - yoe / 100 + doy
  era * 146097 + doe - 719468

/-- Total seconds (exact, including microseconds) represented by a `DateTime`,
relative to the Unix epoch. -/
def DateTime.toSeconds (t : DateTime) : ℚ :=
  (DateTime.daysFromCivil t.year t.month t.day : ℚ) * 86400 +
    (t.hour : ℚ) * 3600 + (t.minute : ℚ) * 60 + (t.second : ℚ) +
    (t.microsecond : ℚ) / 1000000

/-- Character for a single decimal digit. -/
def digitChar (n : ℕ) : Char := Char.ofNat (48 + n)

/-- Two-digit zero-padded decimal rendering. -/
def pad2 (n : ℕ) : List Char := [digitChar (n / 10 % 10), digitChar (n % 10)]

/-- Four-digit zero-padded decimal rendering. -/
def pad4 (n : ℕ) : List Char :=
  [digitChar (n / 1000 % 10), digitChar (n / 100 % 10),
   digitChar (n / 10 % 10), digitChar (n % 10)]

/-- Six-digit zero-padded decimal rendering. -/
def pad6 (n : ℕ) : List Char :=
  [digitChar (n / 100000 % 10), digitChar (n / 10000 % 10),
   digitChar (n / 1000 % 10), digitChar (n / 100 % 10),
   digitChar (n / 10 % 10), digitChar (n % 10)]

/-- Numeric value of a decimal digit character. -/
def readDigit (c : Char) : ℕ := c.toNat - 48

/-- Value of a two-digit group. -/
def read2 (a b : Char) : ℕ := readDigit a * 10 + readDigit b

/-- Value of a four-digit group. -/
def read4 (a b c d : Char) : ℕ :=
  readDigit a * 1000 + readDigit b * 100 + readDigit c * 10 + readDigit d

/-- Value of a six-digit group. -/
def read6 (a b c d e f : Char) : ℕ :=
  readDigit a * 100000 + readDigit b * 10000 + readDigit c * 1000 +
    readDigit d * 100 + readDigit e * 10 + readDigit f

/-- Python `datetime.isoformat()` on a naive datetime:
`YYYY-MM-DDTHH:MM:SS`, followed by `.ffffff` exactly when the microsecond
field is non-zero. -/
def DateTime.isoformatChars (t : DateTime) : List Char :=
  pad4 t.year ++ ['-'] ++ pad2 t.month ++ ['-'] ++ pad2 t.day ++ ['T'] ++
    pad2 t.hour ++ [':'] ++ pad2 t.minute ++ [':'] ++ pad2 t.second ++
    (if t.microsecond = 0 then [] else '.' :: pad6 t.microsecond)

/-- `datetime.isoformat()` as a string. -/
def DateTime.isoformat (t : DateTime) : String := String.mk t.isoformatChars

/-- Python `datetime.fromisoformat` restricted to the exact shapes
`datetime.isoformat` emits (19 characters without microseconds, 26 with);
other inputs are modelled as a parse failure. -/
def fromisoformatChars : List Char → Option DateTime
  | [y1, y2, y3, y4, s1, mo1, mo2, s2, d1, d2, s3,
     h1, h2, s4, mi1, mi2, s5, se1, se2] =>
    if s1 = '-' ∧ s2 = '-' ∧ s3 = 'T' ∧ s4 = ':' ∧ s5 = ':' ∧
        y1.isDigit ∧ y2.isDigit ∧ y3.isDigit ∧ y4.isDigit ∧
        mo1.isDigit ∧ mo2.isDigit ∧ d1.isDigit ∧ d2.isDigit ∧
        h1.isDigit ∧ h2.isDigit ∧ mi1.isDigit ∧ mi2.isDigit ∧
        se1.isDigit ∧ se2.isDigit then
      some ⟨read4 y1 y2 y3 y4, read2 mo1 mo2, read2 d1 d2,
            read2 h1 h2, read2 mi1 mi2, read2 se1 se2, 0⟩
    else none
  | [y1, y2, y3, y4, s1, mo1, mo2, s2, d1, d2, s3,
     h1, h2, s4, mi1, mi2, s5, se1, se2, dot, u1, u2, u3, u4, u5, u6] =>
    if s1 = '-' ∧ s2 = '-' ∧ s3 = 'T' ∧ s4 = ':' ∧ s5 = ':' ∧ dot = '.' ∧
        y1.isDigit ∧ y2.isDigit ∧ y3.isDigit ∧ y4.isDigit ∧
        mo1.isDigit ∧ mo2.isDigit ∧ d1.isDigit ∧ d2.isDigit ∧
        h1.isDigit ∧ h2.isDigit ∧ mi1.isDigit ∧ mi2.isDigit ∧
        se1.isDigit ∧ se2.isDigit ∧ u1.isDigit ∧ u2.isDigit ∧
        u3.isDigit ∧ u4.isDigit ∧ u5.isDigit ∧ u6.isDigit then
      some ⟨read4 y1 y2 y3 y4, read2 mo1 mo2, read2 d1 d2,
            read2 h1 h2, read2 mi1 mi2, read2 se1 se2,
            read6 u1 u2 u3 u4 u5 u6⟩
    else none
  | _ => none

/-- `datetime.fromisoformat` on strings. -/
def DateTime.fromisoformat (s : String) : Option DateTime :=
  fromisoformatChars s.data

/-! ## Core data types (`bot/core/types.py`). -/

/-- `TokenId`: token identifier with chain and mint address. -/
structure TokenId where
  chain : String
  mint : String
deriving DecidableEq, Repr

/-- `TokenSnapshot`: immutable market observation (`bot/core/types.py`). -/
structure TokenSnapshot where
  token : TokenId
  price_usd : ℚ
  liq_usd : ℚ
  vol_5m_usd : ℚ
  holders : Option ℤ
  age_seconds : Option ℤ
  pct_change_5m : Option ℚ
  source : String
  ts : DateTime
deriving DecidableEq, Repr

/-! ## Risk manager (`bot/risk/manager.py`, `RiskManagerImpl`).

The Python object carries configuration fields (set in `__init__`) and mutable
in-memory state.  Both are modelled as explicit records.  Every public entry
point of the source first calls `_reset_daily_if_needed`, which maps the state
to another state of the same shape (possibly zeroing `daily_pnl` and clearing
the cooldowns); the theorems below quantify over all states, hence over every
state the body after that reset can observe. -/

structure RiskConfig where
  position_size_usd : ℚ
  daily_max_loss_usd : ℚ
  cooldown_seconds : ℚ
  max_concurrent_positions : ℕ
deriving DecidableEq, Repr

structure RiskState where
  daily_pnl : ℚ
  /-- `_token_cooldowns`: mint → last recorded trade time. -/
  token_cooldowns : List (String × ℚ)
  /-- `_active_positions`: mints with an open position. -/
  active_positions : List String
deriving DecidableEq, Repr

/-- `dict.get(key, 0)` over the cooldown map. -/
def cooldownLookup (m : List (String × ℚ)) (key : String) : ℚ :=
  ((m.lookup key).getD 0)

/-- `RiskManagerImpl.remaining_daily_budget` (manager.py lines 76-79). -/
def remaining_daily_budget (cfg : RiskConfig) (st : RiskState) : ℚ :=
  cfg.daily_max_loss_usd + st.daily_pnl

/-- `RiskManagerImpl.size_usd` (manager.py lines 81-119). -/
def size_usd (cfg : RiskConfig) (st : RiskState) (snap : TokenSnapshot) : ℚ :=
  let size := cfg.position_size_usd
  let remaining_budget := remaining_daily_budget cfg st
  if remaining_budget ≤ 0 then 0
  else
    let size := min size remaining_budget
    let size := if snap.liq_usd < size * 10 then min size (snap.liq_usd / 10) else size
    max 0 size

/-- Denial reasons appended by `RiskManagerImpl.allow_buy`; the cooldown
reason carries the formatted remaining-cooldown time. -/
inductive DenyReason where
  | dailyLossLimit : DenyReason
  | cooldown (remaining : ℚ) : DenyReason
  | maxPositions : DenyReason
  | alreadyHavePosition : DenyReason
  | insufficientLiquidity : DenyReason
  | insufficientVolume : DenyReason
  | invalidPrice : DenyReason
deriving DecidableEq, Repr

/-- Each check in `RiskManagerImpl.allow_buy` follows the exact source
pattern `if cond: reasons.append(r); allowed = False`. -/
def checkStep (acc : List DenyReason × Bool) (cond : Prop) [Decidable cond]
    (r : DenyReason) : List DenyReason × Bool :=
  if cond then (acc.1 ++ [r], false) else acc

/-- `RiskManagerImpl.allow_buy` (manager.py lines 121-184): sequentially
checks each condition, appending a reason and clearing `allowed` on each
one that fires.  `now` models `self._now_fn()`. -/
def allow_buy (cfg : RiskConfig) (st : RiskState) (snap : TokenSnapshot)
    (now : ℚ) : Bool × List DenyReason :=
  let acc : List DenyReason × Bool := ([], true)
  let acc := checkStep acc (remaining_daily_budget cfg st ≤ 0)
    DenyReason.dailyLossLimit
  let token_mint := snap.token.mint
  let last_trade_time := cooldownLookup st.token_cooldowns token_mint
  let acc := checkStep acc (now - last_trade_time < cfg.cooldown_seconds)
    (DenyReason.cooldown (cfg.cooldown_seconds - (now - last_trade_time)))
  let acc := checkStep acc
    (st.active_positions.length ≥ cfg.max_concurrent_positions)
    DenyReason.maxPositions
  let acc := checkStep acc (token_mint ∈ st.active_positions)
    DenyReason.alreadyHavePosition
  let acc := checkStep acc (snap.liq_usd < 1000)
    DenyReason.insufficientLiquidity
  let acc := checkStep acc (snap.vol_5m_usd < 100)
    DenyReason.insufficientVolume
  let acc := checkStep acc (snap.price_usd ≤ 0) DenyReason.invalidPrice
  (acc.2, acc.1)

/-! ## Position lifecycle engine (`bot/exec/strategy.py`, `TradingStrategy`).

Each lifecycle entry point looks up the position for the snapshot's mint and
is a no-op when none is open, so the per-position behaviour is modelled as a
function on `PositionState` returning the updated state together with a flag
that is `false` exactly when the source deletes the position from
`self._positions`.  The price returned by the execution client's `sell`
(`sell_result["price_exec"]`) and the wall clock (`datetime.now()`) are
inputs of the environment and appear as parameters. -/

/-- One entry of `PositionState.partial_sells`: the flat records appended by
`_execute_partial_sell` (with a `level`) and `_execute_full_sell` (without). -/
structure PartialSell where
  timestamp : String
  quantity : ℚ
  price : ℚ
  level : Option ℚ
  reason : String
deriving DecidableEq, Repr

/-- `PositionState` (strategy.py lines 14-44). -/
structure PositionState where
  token_mint : String
  entry_price_usd : ℚ
  quantity : ℚ
  entry_time : DateTime
  high_water_mark : ℚ
  trailing_stop_price : ℚ
  partial_sells : List PartialSell
deriving DecidableEq, Repr

/-- The `partial_sells or []` default in `PositionState.__init__`: an empty
(falsy) list is replaced by `[]`. -/
def listOrNil (xs : List PartialSell) : List PartialSell :=
  if xs.isEmpty then [] else xs

/-- `PositionState.to_dict` output shape (strategy.py lines 46-56): the JSON
record stored by the Persistence collaborator, with `entry_time` serialized
via `isoformat`. -/
structure PositionRecord where
  token_mint : String
  entry_price_usd : ℚ
  quantity : ℚ
  entry_time : String
  high_water_mark : ℚ
  trailing_stop_price : ℚ
  partial_sells : List PartialSell
deriving DecidableEq, Repr

/-- `PositionState.to_dict` (strategy.py lines 46-56). -/
def PositionState.to_dict (p : PositionState) : PositionRecord :=
  ⟨p.token_mint, p.entry_price_usd, p.quantity, p.entry_time.isoformat,
   p.high_water_mark, p.trailing_stop_price, p.partial_sells⟩

/-- `PositionState.from_dict` (strategy.py lines 58-69); parsing the
timestamp can fail, which models the `datetime.fromisoformat` exception. -/
def PositionState.from_dict (r : PositionRecord) : Option PositionState :=
  (DateTime.fromisoformat r.entry_time).map fun t =>
    ⟨r.token_mint, r.entry_price_usd, r.quantity, t,
     r.high_water_mark, r.trailing_stop_price, listOrNil r.partial_sells⟩

/-- Strategy configuration (the `TradingStrategy.__init__` parameters). -/
structure StrategyConfig where
  take_profit_levels : List (ℚ × ℚ)
  trailing_stop_pct : ℚ
  max_hold_time_hours : ℚ
  partial_sell_fraction : ℚ
deriving DecidableEq, Repr

/-- The `pct` argument `_execute_partial_sell` passes to
`exec_client.sell` (strategy.py line 345): `sell_quantity / position.quantity`
where `sell_quantity = position.quantity * fraction`. -/
def strategy_sell_pct_arg (p : PositionState) (fraction : ℚ) : ℚ :=
  (p.quantity * fraction) / p.quantity

/-- The `pct` argument `_execute_full_sell` passes to `exec_client.sell`
(strategy.py line 396), commented `# Sell 100%` in the source. -/
def strategy_full_sell_pct_arg : ℚ := 1

/-- `TradingStrategy._execute_partial_sell` (strategy.py lines 314-371),
restricted to its effect on the position: reduce the quantity by
`fraction × quantity`, append a take-profit log entry tagged with the level,
and delete the position when the remaining quantity reaches 0. -/
def execute_partial_sell (p : PositionState) (now : DateTime)
    (sellExecPrice : ℚ) (fraction : ℚ) (level : ℚ) : PositionState × Bool :=
  let sell_quantity := p.quantity * fraction
  let p' : PositionState :=
    { p with
      quantity := p.quantity - sell_quantity,
      partial_sells := p.partial_sells ++
        [⟨now.isoformat, sell_quantity, sellExecPrice, some level,
          "take_profit"⟩] }
  if p'.quantity ≤ 0 then (p', false) else (p', true)

/-- `TradingStrategy._execute_full_sell` (strategy.py lines 373-415): append
a final log entry (no `level` key) and delete the position. -/
def execute_full_sell (p : PositionState) (now : DateTime)
    (sellExecPrice : ℚ) (reason : String) : PositionState :=
  { p with
    partial_sells := p.partial_sells ++
      [⟨now.isoformat, p.quantity, sellExecPrice, none, reason⟩] }

/-- The level-selection loop of `TradingStrategy.take_profits` (strategy.py
lines 222-232): the executed level is the first configured `(multiplier,
fraction)` pair whose multiplier is reached and which has no matching entry
in the partial-sell log (`already_sold` levels are skipped, the loop
continues). -/
def take_profits_find (cfg : StrategyConfig) (price_multiplier : ℚ)
    (sells : List PartialSell) : Option (ℚ × ℚ) :=
  cfg.take_profit_levels.find? (fun lf =>
    decide (price_multiplier ≥ lf.1) &&
    !(sells.any (fun s => s.level == some lf.1)))

/-- `TradingStrategy.take_profits` (strategy.py lines 199-234): update the
high-water mark, then sell at the first configured level whose multiplier is
reached and which has no matching entry in the partial-sell log. -/
def take_profits_step (cfg : StrategyConfig) (price : ℚ) (now : DateTime)
    (sellExecPrice : ℚ) (p : PositionState) : PositionState × Bool :=
  let price_multiplier := price / p.entry_price_usd
  let p := if price > p.high_water_mark then
      { p with high_water_mark := price } else p
  match take_profits_find cfg price_multiplier p.partial_sells with
  | none => (p, true)
  | some lf => execute_partial_sell p now sellExecPrice lf.2 lf.1

/-- `TradingStrategy.trailing_stop` (strategy.py lines 236-281): raise the
high-water mark and the stop (only upward), then sell everything if the
price is at or below the stop. -/
def trailing_stop_step (cfg : StrategyConfig) (price : ℚ) (now : DateTime)
    (sellExecPrice : ℚ) (p : PositionState) : PositionState × Bool :=
  let p := if price > p.high_water_mark then
      let p1 := { p with high_water_mark := price }
      let new_stop_price := price * (1 - cfg.trailing_stop_pct)
      if new_stop_price > p1.trailing_stop_price then
        { p1 with trailing_stop_price := new_stop_price }
      else p1
    else p
  if price ≤ p.trailing_stop_price then
    (execute_full_sell p now sellExecPrice "trailing_stop", false)
  else (p, true)

/-- `TradingStrategy.time_stop` (strategy.py lines 283-312): sell everything
once the hold time reaches the configured maximum. -/
def time_stop_step (cfg : StrategyConfig) (now : DateTime)
    (sellExecPrice : ℚ) (p : PositionState) : PositionState × Bool :=
  if now.toSeconds - p.entry_time.toSeconds ≥ cfg.max_hold_time_hours * 3600 then
    (execute_full_sell p now sellExecPrice "time_stop", false)
  else (p, true)

/-- A lifecycle call on a position, with the environment's inputs (snapshot
price, wall clock, execution price reported by the sell). -/
inductive LifecycleOp where
  | takeProfits (price : ℚ) (now : DateTime) (execPrice : ℚ) : LifecycleOp
  | trailingStop (price : ℚ) (now : DateTime) (execPrice : ℚ) : LifecycleOp
  | timeStop (now : DateTime) (execPrice : ℚ) : LifecycleOp
deriving Repr

/-- Apply one lifecycle call. -/
def applyOp (cfg : StrategyConfig) (op : LifecycleOp) (p : PositionState) :
    PositionState × Bool :=
  match op with
  | LifecycleOp.takeProfits price now execPrice =>
      take_profits_step cfg price now execPrice p
  | LifecycleOp.trailingStop price now execPrice =>
      trailing_stop_step cfg price now execPrice p
  | LifecycleOp.timeStop now execPrice => time_stop_step cfg now execPrice p

/-- Apply a sequence of lifecycle calls.  Once the position has been deleted
from the active set, later calls find no position and are no-ops
(`self._positions.get(token_mint)` returns `None`). -/
def applyOps (cfg : StrategyConfig) (ops : List LifecycleOp)
    (p : PositionState) : PositionState × Bool :=
  match ops with
  | [] => (p, true)
  | op :: rest =>
      let r := applyOp cfg op p
      if r.2 then applyOps cfg rest r.1 else r

/-- Number of entries in the partial-sell log recorded for take-profit
level `m` (the `any(sell.get("level") == multiplier ...)` test counts these). -/
def count_level (m : ℚ) (p : PositionState) : ℕ :=
  p.partial_sells.countP (fun s => s.level == some m)

/-! ## Paper execution client (`bot/exec/paper.py`, `PaperExecutor`). -/

/-- Paper executor configuration (`slippage_bps`, `fee_bps` from
`PaperExecutor.__init__`; Python `int`). -/
structure PaperConfig where
  slippage_bps : ℤ
  fee_bps : ℤ
deriving DecidableEq, Repr

/-- `VirtualPosition` (paper.py lines 16-30). -/
structure VirtualPosition where
  token_mint : String
  avg_cost_usd : ℚ
  qty_base : ℚ
  created_at : ℚ
deriving DecidableEq, Repr

/-- `VirtualPosition.add_position` (paper.py lines 32-54): cost-basis
averaging; `none` models the `ZeroDivisionError` when the combined quantity
is zero. -/
def VirtualPosition.add_position (pos : VirtualPosition) (cost_usd : ℚ)
    (qty_base : ℚ) : Option VirtualPosition :=
  if qty_base ≤ 0 then some pos
  else
    let total_cost := pos.avg_cost_usd * pos.qty_base + cost_usd
    let total_qty := pos.qty_base + qty_base
    if total_qty = 0 then none
    else some { pos with avg_cost_usd := total_cost / total_qty,
                         qty_base := total_qty }

/-- `PaperExecutor._calculate_execution_price` (paper.py lines 136-153). -/
def calculate_execution_price (cfg : PaperConfig) (base_price_usd : ℚ)
    (is_buy : Bool) : ℚ :=
  let slippage_multiplier := (cfg.slippage_bps : ℚ) / 10000
  if is_buy then base_price_usd * (1 + slippage_multiplier)
  else base_price_usd * (1 - slippage_multiplier)

/-- `PaperExecutor._calculate_fee` (paper.py lines 155-164). -/
def calculate_fee (cfg : PaperConfig) (cost_usd : ℚ) : ℚ :=
  cost_usd * ((cfg.fee_bps : ℚ) / 10000)

/-- The execution-result record built by `PaperExecutor._execute_trade`
(paper.py lines 213-224). -/
structure TradeResult where
  price_exec : ℚ
  qty_base : ℚ
  cost_usd : ℚ
  fee_usd : ℚ
  ts : ℚ
  token_mint : String
  is_buy : Bool
  base_price : ℚ
  slippage_bps : ℤ
deriving DecidableEq, Repr

/-- `PaperExecutor._execute_trade` (paper.py lines 166-238).  `none` models
the raised `ValueError` (no position to sell) and `ZeroDivisionError`
(zero execution price in a division).  `now` models `self._now_fn()`. -/
def execute_trade (cfg : PaperConfig)
    (positions : List (String × VirtualPosition)) (snap : TokenSnapshot)
    (usd_amount : ℚ) (is_buy : Bool) (pct : Option ℚ) (now : ℚ) :
    Option TradeResult :=
  let base_price := snap.price_usd
  let exec_price := calculate_execution_price cfg base_price is_buy
  let qtyCost : Option (ℚ × ℚ) :=
    if is_buy then
      if exec_price = 0 then none
      else some (usd_amount / exec_price, usd_amount)
    else
      match positions.lookup snap.token.mint with
      | none => none
      | some position =>
        if position.qty_base ≤ 0 then none
        else
          let q0 : Option ℚ :=
            match pct with
            | some pctVal => some (position.qty_base * (pctVal / 100))
            | none =>
                if exec_price = 0 then none
                else some (usd_amount / exec_price)
          q0.map fun q =>
            let qty := min q position.qty_base
            (qty, qty * exec_price)
  qtyCost.map fun qc =>
    ⟨exec_price, qc.1, qc.2, calculate_fee cfg qc.2, now,
     snap.token.mint, is_buy, base_price, cfg.slippage_bps⟩

/-- The paper executor's in-memory state (`_positions`,
`_trade_history`). -/
structure PaperState where
  positions : List (String × VirtualPosition)
  trade_history : List TradeResult
deriving DecidableEq, Repr

/-- Python dict assignment `self._positions[token_mint] = v` on the
association-list model. -/
def assocSet (m : List (String × VirtualPosition)) (k : String)
    (v : VirtualPosition) : List (String × VirtualPosition) :=
  match m with
  | [] => [(k, v)]
  | (k', v') :: rest =>
      if k' = k then (k, v) :: rest else (k', v') :: assocSet rest k v

/-- `PaperExecutor.buy` (paper.py lines 259-297): execute the trade, then
create or average into the virtual position (fees included in the cost
basis) and append to the trade history.  `none` models a raised exception
(in particular the `cost_usd / qty_base` division when a new position is
created with zero quantity). -/
def paper_buy (cfg : PaperConfig) (st : PaperState) (snap : TokenSnapshot)
    (usd_amount : ℚ) (now : ℚ) : Option (TradeResult × PaperState) :=
  match execute_trade cfg st.positions snap usd_amount true none now with
  | none => none
  | some result =>
    let token_mint := snap.token.mint
    let cost_usd := result.cost_usd + result.fee_usd
    let qty_base := result.qty_base
    match st.positions.lookup token_mint with
    | none =>
        if qty_base = 0 then none
        else some (result,
          ⟨assocSet st.positions token_mint
             ⟨token_mint, cost_usd / qty_base, qty_base, now⟩,
           st.trade_history ++ [result]⟩)
    | some position =>
        match position.add_position cost_usd qty_base with
        | none => none
        | some position' => some (result,
            ⟨assocSet st.positions token_mint position',
             st.trade_history ++ [result]⟩)

/-- Quantity sold by `PaperExecutor._execute_trade` when a sell is requested
by percentage (paper.py line 201): `position.qty_base * (pct / 100.0)`. -/
def paper_sell_qty_for_pct (position : VirtualPosition) (pct : ℚ) : ℚ :=
  position.qty_base * (pct / 100)

/-! ## Transaction channel (`bot/exec/senders.py`, `RpcSender`).

Network behaviour is an input of the environment: `outcomes i` (resp.
`polls i`) is what the `i`-th attempt (resp. polling iteration) observes.
Backoff and poll-interval sleeps affect only wall-clock timing, which the
embedding abstracts; the deadline of `confirm_signature` appears as the
number of loop iterations it allows. -/

/-- Exceptions that can reach the retry wrapper of `_make_rpc_request`:
httpx transport errors, HTTP status errors raised by `raise_for_status`,
node-reported JSON-RPC errors (`SolanaRpcError`), and anything else. -/
inductive RpcException where
  | timeoutException : RpcException
  | connectError : RpcException
  | networkError : RpcException
  | httpStatusError (status : ℕ) : RpcException
  | solanaRpcError (code : ℤ) (message : String) : RpcException
  | otherException (message : String) : RpcException
deriving DecidableEq, Repr

/-- `_is_retryable_error` (senders.py lines 20-37). -/
def is_retryable_error : RpcException → Bool
  | RpcException.timeoutException => true
  | RpcException.connectError => true
  | RpcException.networkError => true
  | RpcException.solanaRpcError code _ =>
      decide (code ∈ ([-32603, -32005, -32004, 429] : List ℤ))
  | _ => false

/-- Semantics of the `tenacity` decorator on `_make_rpc_request`
(senders.py lines 114-119): after a failed attempt, retry iff
`_is_retryable_error` accepts the exception and fewer than 3 attempts have
been made (`stop_after_attempt(3)`); otherwise re-raise (`reraise=True`).
`i` is the index of the attempt about to run, `fuel` the number of retries
still allowed; the pair returned is the overall outcome and the total
number of attempts made. -/
def retryFrom {α : Type} (outcomes : ℕ → Except RpcException α) :
    ℕ → ℕ → Except RpcException α × ℕ
  | i, fuel =>
    match outcomes i, fuel with
    | Except.ok a, _ => (Except.ok a, i + 1)
    | Except.error e, 0 => (Except.error e, i + 1)
    | Except.error e, fuel' + 1 =>
        if is_retryable_error e then retryFrom outcomes (i + 1) fuel'
        else (Except.error e, i + 1)

/-- `_make_rpc_request` under its retry decorator: at most 3 attempts. -/
def make_rpc_request {α : Type} (outcomes : ℕ → Except RpcException α) :
    Except RpcException α × ℕ :=
  retryFrom outcomes 0 2

/-- One observed `getSignatureStatuses` status object
(`result["value"][0]` when present). -/
structure SignatureStatus where
  err : Option String
  confirmationStatus : Option String
  slot : Option ℕ
deriving DecidableEq, Repr

/-- What one iteration of the `confirm_signature` polling loop observes:
the RPC result (`none` models a missing or empty `value`, `some none` the
`[null]` "transaction not found yet" answer), a `SolanaRpcError` raised by
`_make_rpc_request` (re-raised by the loop), or any other exception
(caught, logged, and polling continues). -/
inductive PollOutcome where
  | result (r : Option (Option SignatureStatus)) : PollOutcome
  | solanaError (code : ℤ) (message : String) : PollOutcome
  | otherError (message : String) : PollOutcome
deriving DecidableEq, Repr

/-- Exceptions `confirm_signature` can raise: a node-error type
(`SolanaRpcError`, also used for a definitively failed transaction) or the
distinct `TimeoutError` raised when the deadline elapses. -/
inductive ConfirmError where
  | solanaRpc (code : ℤ) (message : String) : ConfirmError
  | timeoutError (message : String) : ConfirmError
deriving DecidableEq, Repr

/-- `RpcSender.confirm_signature` (senders.py lines 297-387): the polling
loop, iteration `i` first; `fuel` is the number of iterations the
`while datetime.now() < end_time` deadline still admits. -/
def confirm_signature_loop (commitment : String) (polls : ℕ → PollOutcome) :
    ℕ → ℕ → Except ConfirmError SignatureStatus
  | _, 0 =>
      Except.error
        (ConfirmError.timeoutError "Transaction confirmation timeout")
  | i, fuel + 1 =>
    match polls i with
    | PollOutcome.solanaError code msg =>
        Except.error (ConfirmError.solanaRpc code msg)
    | PollOutcome.otherError _ =>
        confirm_signature_loop commitment polls (i + 1) fuel
    | PollOutcome.result (some (some status)) =>
        if status.err ≠ none then
          Except.error (ConfirmError.solanaRpc (-1)
            ("Transaction failed: " ++ status.err.getD ""))
        else if status.confirmationStatus = some commitment ∨
            commitment = "processed" then
          Except.ok status
        else confirm_signature_loop commitment polls (i + 1) fuel
    | PollOutcome.result _ =>
        confirm_signature_loop commitment polls (i + 1) fuel

/-- `RpcSender.confirm_signature` from the first iteration. -/
def confirm_signature (commitment : String) (polls : ℕ → PollOutcome)
    (fuel : ℕ) : Except ConfirmError SignatureStatus :=
  confirm_signature_loop commitment polls 0 fuel

/-- A poll observation after which the source loop keeps polling: not
found yet, malformed result, a non-`SolanaRpcError` exception, or a
pending status that has no error and has not reached the requested
commitment. -/
def poll_continues (commitment : String) : PollOutcome → Prop
  | PollOutcome.otherError _ => True
  | PollOutcome.result none => True
  | PollOutcome.result (some none) => True
  | PollOutcome.result (some (some st)) =>
      st.err = none ∧
        ¬(st.confirmationStatus = some commitment ∨ commitment = "processed")
  | PollOutcome.solanaError _ _ => False

/-! ## Concrete sample inputs used by counterexamples and witnesses. -/

def dt2024 : DateTime := ⟨2024, 1, 15, 12, 30, 45, 0⟩

def tokenA : TokenId := ⟨"sol", "MintA111"⟩

def snapA : TokenSnapshot :=
  ⟨tokenA, 1, 10000, 500, none, none, none, "dexscreener", dt2024⟩

def cfgRisk : RiskConfig := ⟨100, 50, 300, 10⟩

/-- Risk state after `after_fill(-100.0)` on a fresh day: daily P&L −100,
so the remaining daily budget is 50 + (−100) = −50 < 0. -/
def stLoss : RiskState := ⟨-100, [], []⟩

def stFresh : RiskState := ⟨0, [], []⟩

/-- Default strategy configuration from `TradingStrategy.__init__`:
ladder `[(2.0, 0.25), (3.0, 0.25)]`, 15% trailing stop, 24h time stop. -/
def cfgStrat : StrategyConfig := ⟨[(2, 1/4), (3, 1/4)], 15/100, 24, 1/4⟩

/-- A partial-sell log entry for take-profit level 2.0. -/
def psTPEntry : PartialSell := ⟨"2024-01-15T12:30:45", 25/2, 2, some 2, "take_profit"⟩

/-- An open position with no partial sells yet. -/
def posFresh : PositionState := ⟨"MintA111", 1, 50, dt2024, 1, 17/20, []⟩

/-- An open position whose level-2.0 take-profit has already fired. -/
def posTP : PositionState := ⟨"MintA111", 1, 75/2, dt2024, 2, 17/10, [psTPEntry]⟩

/-- A paper-executor virtual position holding 50 tokens at cost 1. -/
def vposA : VirtualPosition := ⟨"MintA111", 1, 50, 0⟩

/-- A confirmed signature status. -/
def stConfirmed : SignatureStatus := ⟨none, some "confirmed", some 12345⟩

/-- A failed signature status (non-null `err`). -/
def stFailed : SignatureStatus :=
  ⟨some "InstructionError", some "processed", some 12345⟩

/-- Polls: not found on the first iteration, confirmed on the second. -/
def pollsOk : ℕ → PollOutcome := fun i =>
  if i = 0 then PollOutcome.result (some none)
  else PollOutcome.result (some (some stConfirmed))

/-- Polls: the first status already reports a non-null `err`. -/
def pollsFail : ℕ → PollOutcome := fun _ =>
  PollOutcome.result (some (some stFailed))

/-- Polls: the transaction is never found. -/
def pollsPending : ℕ → PollOutcome := fun _ => PollOutcome.result (some none)

/-- Paper executor with 1% slippage and 0.5% fee (the source defaults). -/
def cfgPaper : PaperConfig := ⟨100, 50⟩

/-- The execution result of a 50 USD paper buy of `snapA` (price 1) under
`cfgPaper`. -/
def rBuyA : TradeResult :=
  ⟨101/100, 5000/101, 50, 1/4, 0, "MintA111", true, 1, 100⟩

/-- Scenario D attempt outcomes: the first attempt hits node error
`-32603` (internal error), the retry succeeds. -/
def outcomesScenarioD : ℕ → Except RpcException String := fun i =>
  if i = 0 then
    Except.error (RpcException.solanaRpcError (-32603) "internal error")
  else Except.ok "signature"

/-! ## Theorems -/

/-- Helper: reasons accumulated by one `allow_buy` check. -/
theorem checkStep_fst (acc : List DenyReason × Bool) (cond : Prop)
    [Decidable cond] (r : DenyReason) :
    (checkStep acc cond r).1 = acc.1 ++ (if cond then [r] else []) := by
  unfold checkStep
  split_ifs <;> simp

/-- Helper: allowed flag after one `allow_buy` check. -/
theorem checkStep_snd (acc : List DenyReason × Bool) (cond : Prop)
    [Decidable cond] (r : DenyReason) :
    (checkStep acc cond r).2 = if cond then false else acc.2 := by
  unfold checkStep
  split_ifs <;> rfl

/-- Helper: the reasons list built by `allow_buy` is the concatenation of a
singleton per fired condition, in source order. -/
theorem allow_buy_snd (cfg : RiskConfig) (st : RiskState) (snap : TokenSnapshot)
    (now : ℚ) :
    (allow_buy cfg st snap now).2 =
      (if remaining_daily_budget cfg st ≤ 0 then [DenyReason.dailyLossLimit] else []) ++
      (if now - cooldownLookup st.token_cooldowns snap.token.mint < cfg.cooldown_seconds then
        [DenyReason.cooldown (cfg.cooldown_seconds -
          (now - cooldownLookup st.token_cooldowns snap.token.mint))] else []) ++
      (if st.active_positions.length ≥ cfg.max_concurrent_positions then
        [DenyReason.maxPositions] else []) ++
      (if snap.token.mint ∈ st.active_positions then
        [DenyReason.alreadyHavePosition] else []) ++
      (if snap.liq_usd < 1000 then [DenyReason.insufficientLiquidity] else []) ++
      (if snap.vol_5m_usd < 100 then [DenyReason.insufficientVolume] else []) ++
      (if snap.price_usd ≤ 0 then [DenyReason.invalidPrice] else []) := by
  simp only [allow_buy, checkStep_fst, List.nil_append]

/-- Helper: `allow_buy` reports `allowed = true` exactly when no condition
fired. -/
theorem allow_buy_fst (cfg : RiskConfig) (st : RiskState) (snap : TokenSnapshot)
    (now : ℚ) :
    (allow_buy cfg st snap now).1 = true ↔ (allow_buy cfg st snap now).2 = [] := by
  rw [allow_buy_snd]
  simp only [allow_buy, checkStep_snd, checkStep_fst, List.nil_append]
  split_ifs <;> simp

/-- C1 (counterexample): as stated, the claim is false on the code.  With
`position_size_usd = 100`, `daily_max_loss_usd = 50` and daily P&L −100, the
remaining daily budget is −50, so
`min(position_size_usd, remaining budget, liq/10) = −50`, while `size_usd`
returns 0 > −50: the returned value exceeds the stated `min` bound. -/
theorem C1_counterexample :
    ¬ (size_usd cfgRisk stLoss snapA ≤
        min cfgRisk.position_size_usd
          (min (remaining_daily_budget cfgRisk stLoss) (snapA.liq_usd / 10))) := by
  norm_num [size_usd, remaining_daily_budget, cfgRisk, stLoss, snapA, min_def]

/-- C1 (amended): for every configuration, state and snapshot, `size_usd`
never returns a negative value, never exceeds
`max 0 (min(position_size_usd, remaining daily budget, liq_usd/10))`
(the `max 0` clamp is forced by the counterexample: when the remaining
budget — or the liquidity — is negative the code returns 0, which exceeds
the raw `min`), and returns exactly 0 whenever the remaining daily budget
is ≤ 0. -/
theorem C1_size_usd_bounds (cfg : RiskConfig) (st : RiskState)
    (snap : TokenSnapshot) :
    0 ≤ size_usd cfg st snap ∧
    size_usd cfg st snap ≤
      max 0 (min cfg.position_size_usd
        (min (remaining_daily_budget cfg st) (snap.liq_usd / 10))) ∧
    (remaining_daily_budget cfg st ≤ 0 → size_usd cfg st snap = 0) := by
  simp only [size_usd]
  split_ifs with h1 h2
  · exact ⟨le_rfl, le_max_left _ _, fun _ => rfl⟩
  · refine ⟨le_max_left _ _, ?_, fun h => absurd h h1⟩
    rw [min_assoc]
  · refine ⟨le_max_left _ _, ?_, fun h => absurd h h1⟩
    have h10 : min cfg.position_size_usd (remaining_daily_budget cfg st) ≤
        snap.liq_usd / 10 := by
      rw [le_div_iff₀ (by norm_num : (0:ℚ) < 10)]
      linarith [not_lt.mp h2]
    rw [← min_assoc, min_eq_left h10]

/-- C1 (witness): at the concrete loss state the remaining budget is ≤ 0 and
the amended theorem yields `size_usd = 0` there. -/
theorem C1_size_usd_bounds_witness : size_usd cfgRisk stLoss snapA = 0 :=
  (C1_size_usd_bounds cfgRisk stLoss snapA).2.2
    (by norm_num [remaining_daily_budget, cfgRisk, stLoss])

/-- Helper: count of an element in a conditional singleton chunk. -/
theorem count_ite_singleton (c : Prop) [Decidable c] (x r : DenyReason) :
    (if c then [r] else []).count x = if c ∧ r = x then 1 else 0 := by
  split_ifs with h1 h2 <;> simp_all [List.count_singleton', beq_iff_eq]

/-- Helper: length of a conditional singleton chunk. -/
theorem length_ite_singleton (c : Prop) [Decidable c] (r : DenyReason) :
    (if c then [r] else []).length = if c then 1 else 0 := by
  split_ifs <;> simp

/-- C2: `allow_buy` returns `allowed = false` iff its reasons list is
non-empty; the reasons list holds exactly one entry for each of the seven
independently checked conditions that fired (daily budget exhausted, token
in cooldown, concurrent-position cap, already-open position, liquidity
floor, 5-minute-volume floor, non-positive price) — no omissions, no
duplicates, no early short-circuit. -/
theorem C2_allow_buy_reasons (cfg : RiskConfig) (st : RiskState)
    (snap : TokenSnapshot) (now : ℚ) :
    ((allow_buy cfg st snap now).1 = false ↔ (allow_buy cfg st snap now).2 ≠ []) ∧
    (allow_buy cfg st snap now).2.Nodup ∧
    (allow_buy cfg st snap now).2.count DenyReason.dailyLossLimit =
      (if remaining_daily_budget cfg st ≤ 0 then 1 else 0) ∧
    (allow_buy cfg st snap now).2.count
        (DenyReason.cooldown (cfg.cooldown_seconds -
          (now - cooldownLookup st.token_cooldowns snap.token.mint))) =
      (if now - cooldownLookup st.token_cooldowns snap.token.mint <
          cfg.cooldown_seconds then 1 else 0) ∧
    (allow_buy cfg st snap now).2.count DenyReason.maxPositions =
      (if st.active_positions.length ≥ cfg.max_concurrent_positions then 1 else 0) ∧
    (allow_buy cfg st snap now).2.count DenyReason.alreadyHavePosition =
      (if snap.token.mint ∈ st.active_positions then 1 else 0) ∧
    (allow_buy cfg st snap now).2.count DenyReason.insufficientLiquidity =
      (if snap.liq_usd < 1000 then 1 else 0) ∧
    (allow_buy cfg st snap now).2.count DenyReason.insufficientVolume =
      (if snap.vol_5m_usd < 100 then 1 else 0) ∧
    (allow_buy cfg st snap now).2.count DenyReason.invalidPrice =
      (if snap.price_usd ≤ 0 then 1 else 0) ∧
    (allow_buy cfg st snap now).2.length =
      (if remaining_daily_budget cfg st ≤ 0 then 1 else 0) +
      (if now - cooldownLookup st.token_cooldowns snap.token.mint <
          cfg.cooldown_seconds then 1 else 0) +
      (if st.active_positions.length ≥ cfg.max_concurrent_positions then 1 else 0) +
      (if snap.token.mint ∈ st.active_positions then 1 else 0) +
      (if snap.liq_usd < 1000 then 1 else 0) +
      (if snap.vol_5m_usd < 100 then 1 else 0) +
      (if snap.price_usd ≤ 0 then 1 else 0) := by
  have hsnd := allow_buy_snd cfg st snap now
  refine ⟨?_, ?_, ?_, ?_, ?_, ?_, ?_, ?_, ?_, ?_⟩
  · have hf := allow_buy_fst cfg st snap now
    cases h : (allow_buy cfg st snap now).1 <;> simp_all
  · rw [hsnd, List.nodup_iff_count_le_one]
    intro x
    simp only [List.count_append, count_ite_singleton]
    cases x <;> simp <;> split_ifs <;> simp
  all_goals rw [hsnd]
  all_goals simp [List.count_append, count_ite_singleton, length_ite_singleton]
  ring

/-! ### Lifecycle lemmas (strategy.py) -/

/-- Helper: a partial sell never touches the trailing-stop price. -/
theorem execute_partial_sell_stop (p : PositionState) (now : DateTime)
    (ep f l : ℚ) :
    (execute_partial_sell p now ep f l).1.trailing_stop_price =
      p.trailing_stop_price := by
  simp only [execute_partial_sell]
  split_ifs <;> rfl

/-- Helper: a full sell never touches the trailing-stop price. -/
theorem execute_full_sell_stop (p : PositionState) (now : DateTime) (ep : ℚ)
    (r : String) :
    (execute_full_sell p now ep r).trailing_stop_price =
      p.trailing_stop_price := rfl

/-- Helper: `take_profits` never touches the trailing-stop price. -/
theorem take_profits_step_stop (cfg : StrategyConfig) (price : ℚ)
    (now : DateTime) (ep : ℚ) (p : PositionState) :
    (take_profits_step cfg price now ep p).1.trailing_stop_price =
      p.trailing_stop_price := by
  simp only [take_profits_step]
  split_ifs <;> split <;> simp [execute_partial_sell_stop]

/-- Helper: `trailing_stop` either leaves the stop price unchanged or
strictly raises it to the updated high-water mark times
`1 − trailing_stop_pct`. -/
theorem trailing_stop_step_stop (cfg : StrategyConfig) (price : ℚ)
    (now : DateTime) (ep : ℚ) (p : PositionState) :
    (trailing_stop_step cfg price now ep p).1.trailing_stop_price =
      p.trailing_stop_price ∨
    (p.trailing_stop_price <
        (trailing_stop_step cfg price now ep p).1.trailing_stop_price ∧
      (trailing_stop_step cfg price now ep p).1.trailing_stop_price =
        (trailing_stop_step cfg price now ep p).1.high_water_mark *
          (1 - cfg.trailing_stop_pct)) := by
  simp only [trailing_stop_step, execute_full_sell]
  split_ifs <;> first
    | exact Or.inl rfl
    | exact Or.inr ⟨by assumption, rfl⟩

/-- Helper: `time_stop` never touches the trailing-stop price. -/
theorem time_stop_step_stop (cfg : StrategyConfig) (now : DateTime) (ep : ℚ)
    (p : PositionState) :
    (time_stop_step cfg now ep p).1.trailing_stop_price =
      p.trailing_stop_price := by
  simp only [time_stop_step, execute_full_sell]
  split_ifs <;> rfl

/-- Helper: no lifecycle call lowers the trailing-stop price. -/
theorem applyOp_stop_mono (cfg : StrategyConfig) (op : LifecycleOp)
    (p : PositionState) :
    p.trailing_stop_price ≤ (applyOp cfg op p).1.trailing_stop_price := by
  cases op with
  | takeProfits price now ep =>
      exact le_of_eq (take_profits_step_stop cfg price now ep p).symm
  | trailingStop price now ep =>
      rcases trailing_stop_step_stop cfg price now ep p with h | h
      · exact le_of_eq h.symm
      · exact le_of_lt h.1
  | timeStop now ep =>
      exact le_of_eq (time_stop_step_stop cfg now ep p).symm

/-- Helper: the trailing-stop price is non-decreasing along any sequence of
lifecycle calls. -/
theorem applyOps_stop_mono (cfg : StrategyConfig) (ops : List LifecycleOp) :
    ∀ p : PositionState,
      p.trailing_stop_price ≤ (applyOps cfg ops p).1.trailing_stop_price := by
  induction ops with
  | nil => intro p; exact le_rfl
  | cons op rest ih =>
      intro p
      simp only [applyOps]
      split_ifs with h
      · exact le_trans (applyOp_stop_mono cfg op p) (ih _)
      · exact applyOp_stop_mono cfg op p

/-- C3: over any sequence of lifecycle calls on an open position, the
trailing-stop price is monotonically non-decreasing; a `trailing_stop` call
either leaves it unchanged or replaces it with a strictly larger value equal
to the (updated) high-water mark × (1 − trailing_stop_pct), and no other
lifecycle operation ever lowers it. -/
theorem C3_trailing_stop_monotone (cfg : StrategyConfig)
    (ops : List LifecycleOp) (p : PositionState) :
    p.trailing_stop_price ≤ (applyOps cfg ops p).1.trailing_stop_price ∧
    ∀ price now execPrice,
      (trailing_stop_step cfg price now execPrice p).1.trailing_stop_price =
        p.trailing_stop_price ∨
      (p.trailing_stop_price <
          (trailing_stop_step cfg price now execPrice p).1.trailing_stop_price ∧
        (trailing_stop_step cfg price now execPrice p).1.trailing_stop_price =
          (trailing_stop_step cfg price now execPrice p).1.high_water_mark *
            (1 - cfg.trailing_stop_pct)) :=
  ⟨applyOps_stop_mono cfg ops p,
   fun price now execPrice => trailing_stop_step_stop cfg price now execPrice p⟩

/-- Helper: a partial sell at level `l` adds exactly one level-`l` entry to
the log. -/
theorem count_level_eps (m : ℚ) (p : PositionState) (now : DateTime)
    (ep f l : ℚ) :
    count_level m (execute_partial_sell p now ep f l).1 =
      count_level m p + (if l = m then 1 else 0) := by
  simp only [execute_partial_sell, count_level]
  split_ifs <;>
    simp [List.countP_append, List.countP_cons, beq_iff_eq] <;>
    simp_all

/-- Helper: a full sell adds no levelled entry to the log. -/
theorem count_level_efs (m : ℚ) (p : PositionState) (now : DateTime) (ep : ℚ)
    (r : String) :
    count_level m (execute_full_sell p now ep r) = count_level m p := by
  simp [execute_full_sell, count_level, List.countP_append, List.countP_cons]

/-- Helper: a level selected by the `take_profits` loop has no matching
entry in the partial-sell log. -/
theorem take_profits_find_not_sold (cfg : StrategyConfig)
    (price_multiplier : ℚ) (sells : List PartialSell) (lf : ℚ × ℚ)
    (heq : take_profits_find cfg price_multiplier sells = some lf) :
    ∀ s ∈ sells, s.level ≠ some lf.1 := by
  have hpred := List.find?_some heq
  simp only [Bool.and_eq_true, Bool.not_eq_true', List.any_eq_false] at hpred
  intro s hs
  have := hpred.2 s hs
  simpa [beq_iff_eq] using this

/-- Helper: if the log holds a level-`m` entry, the level-`m` count is
positive. -/
theorem count_level_pos (m : ℚ) (p : PositionState)
    (h : ∃ s ∈ p.partial_sells, s.level = some m) : 0 < count_level m p := by
  obtain ⟨s, hs, hl⟩ := h
  unfold count_level
  rw [List.countP_pos_iff]
  exact ⟨s, hs, by simp [hl]⟩

/-- Helper: one `take_profits` call either leaves the level-`m` count
unchanged, or raises it from 0 to 1 (it only sells a level that has no
matching log entry). -/
theorem take_profits_step_count (cfg : StrategyConfig) (price : ℚ)
    (now : DateTime) (ep : ℚ) (p : PositionState) (m : ℚ) :
    count_level m (take_profits_step cfg price now ep p).1 = count_level m p ∨
    (count_level m p = 0 ∧
      count_level m (take_profits_step cfg price now ep p).1 = 1) := by
  simp only [take_profits_step]
  split_ifs <;>
  · split
    · exact Or.inl rfl
    · rename_i lf heq
      have hnone := take_profits_find_not_sold _ _ _ _ heq
      rw [count_level_eps]
      by_cases hlm : lf.1 = m
      · have hz : count_level m p = 0 := by
          unfold count_level
          rw [List.countP_eq_zero]
          intro s hs
          simp only [beq_iff_eq]
          exact fun hh => hnone s hs (by rw [hlm]; exact hh)
        refine Or.inr ⟨hz, ?_⟩
        show count_level m p + (if lf.1 = m then 1 else 0) = 1
        rw [hz, if_pos hlm]
      · refine Or.inl ?_
        show count_level m p + (if lf.1 = m then 1 else 0) = count_level m p
        rw [if_neg hlm, Nat.add_zero]

/-- Helper: `trailing_stop` adds no levelled entry to the log. -/
theorem trailing_stop_step_count (cfg : StrategyConfig) (price : ℚ)
    (now : DateTime) (ep : ℚ) (p : PositionState) (m : ℚ) :
    count_level m (trailing_stop_step cfg price now ep p).1 =
      count_level m p := by
  simp only [trailing_stop_step]
  split_ifs <;> (try simp only [count_level_efs]) <;> rfl

/-- Helper: `time_stop` adds no levelled entry to the log. -/
theorem time_stop_step_count (cfg : StrategyConfig) (now : DateTime) (ep : ℚ)
    (p : PositionState) (m : ℚ) :
    count_level m (time_stop_step cfg now ep p).1 = count_level m p := by
  simp only [time_stop_step]
  split_ifs <;> (try simp only [count_level_efs]) <;> rfl

/-- Helper: no lifecycle call can push the level-`m` count above one. -/
theorem applyOp_count_le_one (cfg : StrategyConfig) (op : LifecycleOp)
    (p : PositionState) (m : ℚ) (h : count_level m p ≤ 1) :
    count_level m (applyOp cfg op p).1 ≤ 1 := by
  cases op with
  | takeProfits price now ep =>
      rcases take_profits_step_count cfg price now ep p m with h1 | ⟨h0, h1⟩ <;>
        simp only [applyOp] <;> omega
  | trailingStop price now ep =>
      simp only [applyOp, trailing_stop_step_count]
      exact h
  | timeStop now ep =>
      simp only [applyOp, time_stop_step_count]
      exact h

/-- Helper: the at-most-one-levelled-entry invariant is preserved by any
sequence of lifecycle calls. -/
theorem applyOps_count_le_one (cfg : StrategyConfig) (ops : List LifecycleOp)
    (m : ℚ) :
    ∀ p : PositionState, count_level m p ≤ 1 →
      count_level m (applyOps cfg ops p).1 ≤ 1 := by
  induction ops with
  | nil => intro p h; exact h
  | cons op rest ih =>
      intro p h
      simp only [applyOps]
      split_ifs with hAlive
      · exact ih _ (applyOp_count_le_one cfg op p m h)
      · exact applyOp_count_le_one cfg op p m h

/-- C4: each configured take-profit level fires at most once per position:
starting from a position whose log holds at most one entry for level `m`,
any sequence of lifecycle calls leaves at most one; moreover, once any
level-`m` log entry exists, a `take_profits` call never sells at level `m`
again (the level-`m` count is unchanged), however often the price revisits
the multiplier. -/
theorem C4_take_profit_level_fires_once (cfg : StrategyConfig)
    (ops : List LifecycleOp) (m : ℚ) (p : PositionState)
    (h : count_level m p ≤ 1) :
    count_level m (applyOps cfg ops p).1 ≤ 1 ∧
    (∀ price now execPrice, (∃ s ∈ p.partial_sells, s.level = some m) →
      count_level m (take_profits_step cfg price now execPrice p).1 =
        count_level m p) := by
  refine ⟨applyOps_count_le_one cfg ops m p h, ?_⟩
  intro price now execPrice hs
  rcases take_profits_step_count cfg price now execPrice p m with h1 | ⟨h0, h1⟩
  · exact h1
  · exact absurd h0 (by have := count_level_pos m p hs; omega)

/-- C4 (witness): with the default ladder, a position whose level-2 entry is
already logged keeps at most one level-2 entry after a call that revisits
the 2× multiplier, and that call leaves the level-2 count unchanged. -/
theorem C4_take_profit_level_fires_once_witness :
    count_level 2
        (applyOps cfgStrat [LifecycleOp.takeProfits 2 dt2024 2] posTP).1 ≤ 1 ∧
    count_level 2 (take_profits_step cfgStrat 2 dt2024 2 posTP).1 =
      count_level 2 posTP :=
  ⟨(C4_take_profit_level_fires_once cfgStrat [LifecycleOp.takeProfits 2 dt2024 2]
      2 posTP (by simp [count_level, posTP, psTPEntry])).1,
   (C4_take_profit_level_fires_once cfgStrat [] 2 posTP
      (by simp [count_level, posTP, psTPEntry])).2 2 dt2024 2
      ⟨psTPEntry, by simp [posTP], rfl⟩⟩

/-- C5: evidence for the unit mismatch in partial sells.  For a position of
50 tokens and fraction 0.25, `_execute_partial_sell` passes
`sell_quantity / position.quantity = 0.25` as the `pct` argument of
`exec_client.sell`, not the percentage `100 · 0.25 = 25` required by the
executors' 0–100 contract; the paper executor would therefore sell
`50 · (0.25/100) = 0.125` tokens while the strategy records a sale of
`50 · 0.25 = 12.5` tokens. -/
theorem C5_partial_sell_pct_mismatch :
    strategy_sell_pct_arg posFresh (1/4) = 1/4 ∧
    (100 : ℚ) * (1/4) = 25 ∧
    strategy_sell_pct_arg posFresh (1/4) ≠ 100 * (1/4 : ℚ) ∧
    paper_sell_qty_for_pct vposA (strategy_sell_pct_arg posFresh (1/4)) = 1/8 ∧
    posFresh.quantity * (1/4) = 25/2 ∧
    paper_sell_qty_for_pct vposA (strategy_sell_pct_arg posFresh (1/4)) ≠
      posFresh.quantity * (1/4) := by
  norm_num [strategy_sell_pct_arg, paper_sell_qty_for_pct, posFresh, vposA]

/-! ### Retry-policy lemmas (senders.py) -/

/-- Helper: the retry loop makes at most `fuel + 1` further attempts. -/
theorem retryFrom_count_le {α : Type} (outcomes : ℕ → Except RpcException α) :
    ∀ fuel i, (retryFrom outcomes i fuel).2 ≤ i + fuel + 1 := by
  intro fuel
  induction fuel with
  | zero =>
      intro i
      unfold retryFrom
      cases h : outcomes i <;> simp [h]
  | succ fuel ih =>
      intro i
      unfold retryFrom
      cases h : outcomes i with
      | ok a => simp [h]
      | error e =>
          simp only [h]
          split_ifs with hr
          · exact le_trans (ih (i + 1)) (by omega)
          · simp

/-- Helper: the retry loop makes at least one attempt. -/
theorem retryFrom_count_ge {α : Type} (outcomes : ℕ → Except RpcException α) :
    ∀ fuel i, i + 1 ≤ (retryFrom outcomes i fuel).2 := by
  intro fuel
  induction fuel with
  | zero =>
      intro i
      unfold retryFrom
      cases h : outcomes i <;> simp [h]
  | succ fuel ih =>
      intro i
      unfold retryFrom
      cases h : outcomes i with
      | ok a => simp [h]
      | error e =>
          simp only [h]
          split_ifs with hr
          · exact le_trans (by omega) (ih (i + 1))
          · simp

/-- Helper: every attempt before the final one failed with a retryable
error. -/
theorem retryFrom_prior_retryable {α : Type}
    (outcomes : ℕ → Except RpcException α) :
    ∀ fuel i j, i ≤ j → j + 1 < (retryFrom outcomes i fuel).2 →
      ∃ e, outcomes j = Except.error e ∧ is_retryable_error e = true := by
  intro fuel
  induction fuel with
  | zero =>
      intro i j hij h
      unfold retryFrom at h
      cases hcase : outcomes i <;> simp [hcase] at h <;> omega
  | succ fuel ih =>
      intro i j hij h
      unfold retryFrom at h
      cases hcase : outcomes i with
      | ok a => simp [hcase] at h; omega
      | error e =>
          simp only [hcase] at h
          split_ifs at h with hr
          · rcases eq_or_lt_of_le hij with rfl | hlt
            · exact ⟨e, hcase, hr⟩
            · exact ih (i + 1) j hlt h
          · simp at h; omega

/-- Helper: a non-retryable failure is re-raised at once. -/
theorem retryFrom_raise {α : Type} (outcomes : ℕ → Except RpcException α)
    (fuel i : ℕ) (e : RpcException) (h1 : outcomes i = Except.error e)
    (h2 : is_retryable_error e = false) :
    retryFrom outcomes i fuel = (Except.error e, i + 1) := by
  cases fuel <;> (unfold retryFrom; simp [h1, h2])

/-- Helper: a retryable failure with retries remaining continues the loop. -/
theorem retryFrom_continue {α : Type} (outcomes : ℕ → Except RpcException α)
    (fuel i : ℕ) (e : RpcException) (h1 : outcomes i = Except.error e)
    (h2 : is_retryable_error e = true) :
    retryFrom outcomes i (fuel + 1) = retryFrom outcomes (i + 1) fuel := by
  conv_lhs => unfold retryFrom
  simp [h1, h2]

/-- C6: every remote RPC call is attempted at most 3 times; every
non-final attempt failed with a retryable error; an error is retryable
exactly when it is a transport-level timeout/connect/network failure or a
node-reported error whose code is in the allow-list
{-32603, -32005, -32004, 429}; a non-retryable failure propagates to the
caller immediately (the call returns that error after that attempt, with
no retry); and a retryable failure with attempts remaining is retried. -/
theorem C6_rpc_retry_policy {α : Type} (outcomes : ℕ → Except RpcException α) :
    (make_rpc_request outcomes).2 ≤ 3 ∧
    (∀ i, i + 1 < (make_rpc_request outcomes).2 →
      ∃ e, outcomes i = Except.error e ∧ is_retryable_error e = true) ∧
    (∀ e, is_retryable_error e = true ↔
      (e = RpcException.timeoutException ∨ e = RpcException.connectError ∨
       e = RpcException.networkError ∨
       ∃ c msg, e = RpcException.solanaRpcError c msg ∧
         (c = -32603 ∨ c = -32005 ∨ c = -32004 ∨ c = 429))) ∧
    (∀ i e, i < 3 →
      (∀ j, j < i →
        ∃ e', outcomes j = Except.error e' ∧ is_retryable_error e' = true) →
      outcomes i = Except.error e → is_retryable_error e = false →
      make_rpc_request outcomes = (Except.error e, i + 1)) ∧
    (∀ i e, i + 1 < 3 →
      (∀ j, j < i →
        ∃ e', outcomes j = Except.error e' ∧ is_retryable_error e' = true) →
      outcomes i = Except.error e → is_retryable_error e = true →
      i + 2 ≤ (make_rpc_request outcomes).2) := by
  refine ⟨?_, ?_, ?_, ?_, ?_⟩
  · exact retryFrom_count_le outcomes 2 0
  · intro i h
    exact retryFrom_prior_retryable outcomes 2 0 i (Nat.zero_le i) h
  · intro e
    cases e <;> simp [is_retryable_error]
  · intro i e hi hprior h1 h2
    interval_cases i
    · exact retryFrom_raise outcomes 2 0 e h1 h2
    · obtain ⟨e0, he0, hr0⟩ := hprior 0 (by omega)
      unfold make_rpc_request
      rw [retryFrom_continue outcomes 1 0 e0 he0 hr0]
      exact retryFrom_raise outcomes 1 1 e h1 h2
    · obtain ⟨e0, he0, hr0⟩ := hprior 0 (by omega)
      obtain ⟨e1, he1, hr1⟩ := hprior 1 (by omega)
      unfold make_rpc_request
      rw [retryFrom_continue outcomes 1 0 e0 he0 hr0,
        retryFrom_continue outcomes 0 1 e1 he1 hr1]
      exact retryFrom_raise outcomes 0 2 e h1 h2
  · intro i e hi hprior h1 h2
    have hi' : i < 2 := by omega
    interval_cases i
    · unfold make_rpc_request
      rw [retryFrom_continue outcomes 1 0 e h1 h2]
      exact retryFrom_count_ge outcomes 1 1
    · obtain ⟨e0, he0, hr0⟩ := hprior 0 (by omega)
      unfold make_rpc_request
      rw [retryFrom_continue outcomes 1 0 e0 he0 hr0,
        retryFrom_continue outcomes 0 1 e h1 h2]
      exact retryFrom_count_ge outcomes 0 2

/-- C6 (witness): in Scenario D (node error −32603 on attempt 1, success on
attempt 2) the call is retried — at least two and at most three attempts
are made. -/
theorem C6_rpc_retry_policy_witness :
    2 ≤ (make_rpc_request outcomesScenarioD).2 ∧
    (make_rpc_request outcomesScenarioD).2 ≤ 3 :=
  ⟨(C6_rpc_retry_policy outcomesScenarioD).2.2.2.2 0
      (RpcException.solanaRpcError (-32603) "internal error") (by omega)
      (fun j hj => absurd hj (by omega)) rfl (by decide),
   (C6_rpc_retry_policy outcomesScenarioD).1⟩

/-! ### Confirmation-loop lemmas (senders.py) -/

/-- Helper: running the loop from iteration `i + 1` is running it from
iteration 0 on the shifted poll sequence. -/
theorem confirm_loop_shift (commitment : String) (polls : ℕ → PollOutcome) :
    ∀ fuel i, confirm_signature_loop commitment polls (i + 1) fuel =
      confirm_signature_loop commitment (fun n => polls (n + 1)) i fuel := by
  intro fuel
  induction fuel with
  | zero => intro i; rfl
  | succ fuel ih =>
      intro i
      unfold confirm_signature_loop
      cases h : polls (i + 1) with
      | solanaError code msg => simp only [h]
      | otherError msg => simp only [h]; exact ih (i + 1)
      | result r =>
          rcases r with _ | (_ | st) <;> simp only [h]
          · exact ih (i + 1)
          · exact ih (i + 1)
          · split_ifs <;> first | rfl | exact ih (i + 1)

/-- Helper: a non-decisive poll observation makes the loop continue with
one less iteration of deadline budget. -/
theorem confirm_loop_skip (commitment : String) (polls : ℕ → PollOutcome)
    (fuel i : ℕ) (h : poll_continues commitment (polls i)) :
    confirm_signature_loop commitment polls i (fuel + 1) =
      confirm_signature_loop commitment polls (i + 1) fuel := by
  conv_lhs => unfold confirm_signature_loop
  cases hp : polls i with
  | solanaError code msg =>
      rw [hp] at h
      exact absurd h (by simp [poll_continues])
  | otherError msg => simp only [hp]
  | result r =>
      rcases r with _ | (_ | st) <;> simp only [hp]
      rw [hp] at h
      simp only [poll_continues] at h
      rw [if_neg (by simp [h.1]), if_neg h.2]

/-- Helper: as soon as a polled status reports a non-null `err`, the loop
raises the node-error exception built from it. -/
theorem confirm_sig_err (commitment : String) :
    ∀ (fuel : ℕ) (polls : ℕ → PollOutcome) (k : ℕ) (st : SignatureStatus),
      k < fuel → (∀ j, j < k → poll_continues commitment (polls j)) →
      polls k = PollOutcome.result (some (some st)) → st.err ≠ none →
      confirm_signature commitment polls fuel =
        Except.error (ConfirmError.solanaRpc (-1)
          ("Transaction failed: " ++ st.err.getD "")) := by
  intro fuel
  induction fuel with
  | zero => intro polls k st hk hcont hpoll herr; omega
  | succ fuel ih =>
      intro polls k st hk hcont hpoll herr
      cases k with
      | zero =>
          unfold confirm_signature confirm_signature_loop
          simp only [hpoll]
          rw [if_pos herr]
      | succ k2 =>
          have h0 : poll_continues commitment (polls 0) := hcont 0 (by omega)
          unfold confirm_signature
          rw [confirm_loop_skip commitment polls fuel 0 h0,
            confirm_loop_shift commitment polls fuel 0]
          exact ih (fun n => polls (n + 1)) k2 st (by omega)
            (fun j hj => hcont (j + 1) (by omega)) hpoll herr

/-- Helper: once a polled status reaches the requested commitment (with no
error), the loop returns it. -/
theorem confirm_sig_ok (commitment : String) :
    ∀ (fuel : ℕ) (polls : ℕ → PollOutcome) (k : ℕ) (st : SignatureStatus),
      k < fuel → (∀ j, j < k → poll_continues commitment (polls j)) →
      polls k = PollOutcome.result (some (some st)) → st.err = none →
      (st.confirmationStatus = some commitment ∨ commitment = "processed") →
      confirm_signature commitment polls fuel = Except.ok st := by
  intro fuel
  induction fuel with
  | zero => intro polls k st hk; omega
  | succ fuel ih =>
      intro polls k st hk hcont hpoll herr hcs
      cases k with
      | zero =>
          unfold confirm_signature confirm_signature_loop
          simp only [hpoll]
          rw [if_neg (by simp [herr]), if_pos hcs]
      | succ k2 =>
          have h0 : poll_continues commitment (polls 0) := hcont 0 (by omega)
          unfold confirm_signature
          rw [confirm_loop_skip commitment polls fuel 0 h0,
            confirm_loop_shift commitment polls fuel 0]
          exact ih (fun n => polls (n + 1)) k2 st (by omega)
            (fun j hj => hcont (j + 1) (by omega)) hpoll herr hcs

/-- Helper: if every iteration the deadline admits is non-decisive, the
loop raises the timeout error. -/
theorem confirm_sig_timeout (commitment : String) :
    ∀ (fuel : ℕ) (polls : ℕ → PollOutcome),
      (∀ j, j < fuel → poll_continues commitment (polls j)) →
      confirm_signature commitment polls fuel =
        Except.error
          (ConfirmError.timeoutError "Transaction confirmation timeout") := by
  intro fuel
  induction fuel with
  | zero => intro polls _; rfl
  | succ fuel ih =>
      intro polls hcont
      unfold confirm_signature
      rw [confirm_loop_skip commitment polls fuel 0 (hcont 0 (by omega)),
        confirm_loop_shift commitment polls fuel 0]
      exact ih (fun n => polls (n + 1)) (fun j hj => hcont (j + 1) (by omega))

/-- C7: `confirm_signature` raises the node-error exception as soon as a
returned status reports a non-null `err`, without looking at any later
poll; returns the status once the requested commitment level is reached;
and, when every iteration the deadline admits is non-decisive, raises a
timeout error whose type (constructor) is distinct from the node-error
exception type. -/
theorem C7_confirm_signature_behaviour (commitment : String)
    (polls : ℕ → PollOutcome) (fuel k : ℕ) (st : SignatureStatus)
    (hk : k < fuel)
    (hcont : ∀ j, j < k → poll_continues commitment (polls j))
    (hpoll : polls k = PollOutcome.result (some (some st))) :
    (st.err ≠ none →
      confirm_signature commitment polls fuel =
        Except.error (ConfirmError.solanaRpc (-1)
          ("Transaction failed: " ++ st.err.getD "")) ∧
      ∀ polls2 : ℕ → PollOutcome, (∀ j, j ≤ k → polls2 j = polls j) →
        confirm_signature commitment polls2 fuel =
          confirm_signature commitment polls fuel) ∧
    (st.err = none →
      (st.confirmationStatus = some commitment ∨ commitment = "processed") →
      confirm_signature commitment polls fuel = Except.ok st) ∧
    (∀ polls3 : ℕ → PollOutcome,
      (∀ j, j < fuel → poll_continues commitment (polls3 j)) →
      confirm_signature commitment polls3 fuel =
        Except.error
          (ConfirmError.timeoutError "Transaction confirmation timeout")) ∧
    (∀ code msg msg2,
      ConfirmError.timeoutError msg2 ≠ ConfirmError.solanaRpc code msg) := by
  refine ⟨?_, ?_, ?_, ?_⟩
  · intro herr
    constructor
    · exact confirm_sig_err commitment fuel polls k st hk hcont hpoll herr
    · intro polls2 hagree
      rw [confirm_sig_err commitment fuel polls k st hk hcont hpoll herr,
        confirm_sig_err commitment fuel polls2 k st hk
          (fun j hj => by rw [hagree j (by omega)]; exact hcont j hj)
          (by rw [hagree k (le_refl k)]; exact hpoll) herr]
  · exact confirm_sig_ok commitment fuel polls k st hk hcont hpoll
  · exact confirm_sig_timeout commitment fuel
  · intro code msg msg2
    simp

/-- C7 (witness): concrete runs — a first status with non-null `err`
raises the node error at once; a status at commitment `confirmed` on the
second poll is returned; never-found polls time out. -/
theorem C7_confirm_signature_behaviour_witness :
    confirm_signature "confirmed" pollsFail 3 =
      Except.error (ConfirmError.solanaRpc (-1)
        ("Transaction failed: " ++ "InstructionError")) ∧
    confirm_signature "confirmed" pollsOk 5 = Except.ok stConfirmed ∧
    confirm_signature "confirmed" pollsPending 4 =
      Except.error
        (ConfirmError.timeoutError "Transaction confirmation timeout") :=
  ⟨((C7_confirm_signature_behaviour "confirmed" pollsFail 3 0 stFailed
      (by omega) (fun j hj => absurd hj (by omega)) rfl).1
      (by simp [stFailed])).1,
   (C7_confirm_signature_behaviour "confirmed" pollsOk 5 1 stConfirmed
      (by omega) (fun j hj => by
        have : j = 0 := by omega
        subst this
        simp [pollsOk, poll_continues]) rfl).2.1 rfl (Or.inl rfl),
   (C7_confirm_signature_behaviour "confirmed" pollsOk 4 1 stConfirmed
      (by omega) (fun j hj => by
        have : j = 0 := by omega
        subst this
        simp [pollsOk, poll_continues]) rfl).2.2.1 pollsPending
      (fun j hj => by simp [pollsPending, poll_continues])⟩

/-! ### Paper-executor theorems (paper.py) -/

/-- C8: every paper trade executes at the snapshot price adjusted
unfavourably by the configured slippage — buys at
`price × (1 + slippage_bps/10000)`, sells at
`price × (1 − slippage_bps/10000)` — and is charged a fee equal to
`cost_usd × fee_bps/10000` of the trade's notional. -/
theorem C8_paper_slippage_and_fee (cfg : PaperConfig)
    (positions : List (String × VirtualPosition)) (snap : TokenSnapshot)
    (usd_amount : ℚ) (is_buy : Bool) (pct : Option ℚ) (now : ℚ)
    (r : TradeResult)
    (h : execute_trade cfg positions snap usd_amount is_buy pct now = some r) :
    r.price_exec = (if is_buy then
        snap.price_usd * (1 + (cfg.slippage_bps : ℚ) / 10000)
      else snap.price_usd * (1 - (cfg.slippage_bps : ℚ) / 10000)) ∧
    r.fee_usd = r.cost_usd * ((cfg.fee_bps : ℚ) / 10000) := by
  simp only [execute_trade] at h
  rw [Option.map_eq_some'] at h
  obtain ⟨qc, _, hr⟩ := h
  constructor
  · rw [← hr]
    cases is_buy <;> simp [calculate_execution_price]
  · rw [← hr]
    simp [calculate_fee]

/-- C8 (witness): a 50 USD buy of a token priced 1 with 1% slippage and
0.5% fee executes at 1.01 and pays fee 0.25 = 50 × 0.005. -/
theorem C8_paper_slippage_and_fee_witness :
    rBuyA.price_exec = snapA.price_usd * (1 + (cfgPaper.slippage_bps : ℚ) / 10000) ∧
    rBuyA.fee_usd = rBuyA.cost_usd * ((cfgPaper.fee_bps : ℚ) / 10000) := by
  have h := C8_paper_slippage_and_fee cfgPaper [] snapA 50 true none 0 rBuyA
    (by norm_num [execute_trade, calculate_execution_price, calculate_fee,
      cfgPaper, snapA, tokenA, rBuyA])
  simpa using h

/-- Helper: after a dict assignment, looking the key up yields the stored
value. -/
theorem lookup_assocSet (m : List (String × VirtualPosition)) (k : String)
    (v : VirtualPosition) : (assocSet m k v).lookup k = some v := by
  induction m with
  | nil => simp [assocSet, List.lookup]
  | cons hd tl ih =>
      obtain ⟨k2, v2⟩ := hd
      simp only [assocSet]
      split_ifs with h
      · simp [List.lookup]
      · have hb : (k == k2) = false := by
          simp only [beq_eq_false_iff_ne]
          exact fun hh => h hh.symm
        rw [List.lookup_cons, hb]
        exact ih

/-- C10 (counterexample): the claim quantifies over every `PaperExecutor`
call with positive snapshot price and positive USD amount, but with
`slippage_bps = -10000` the execution price is
`price × (1 + (−10000)/10000) = 0` and `buy` divides by it: the call does
not complete (it raises `ZeroDivisionError`, modelled as `none`). -/
theorem C10_counterexample :
    (0 : ℚ) < snapA.price_usd ∧ (0 : ℚ) < 50 ∧
    paper_buy ⟨-10000, 50⟩ ⟨[], []⟩ snapA 50 0 = none := by
  norm_num [paper_buy, execute_trade, calculate_execution_price, snapA, tokenA]

/-- C10 (amended): for a configuration with `slippage_bps > −10000` and
`fee_bps > −10000` (in particular the non-negative defaults), every
`PaperExecutor.buy` with positive snapshot price and positive `usd_amount`
completes without division by zero: the execution price and bought
quantity are strictly positive and the resulting virtual position has
positive quantity and positive average cost — both when the mint is new
and when averaging into a stored position with non-negative quantity and
average cost.  The precondition `usd_amount > 0` is necessary: a
zero-amount buy that creates a new position divides by a zero quantity
(modelled as `none`). -/
theorem C10_paper_buy_safe (cfg : PaperConfig) (st : PaperState)
    (snap : TokenSnapshot) (usd_amount now : ℚ)
    (hprice : 0 < snap.price_usd) (hslip : (-10000 : ℤ) < cfg.slippage_bps)
    (hfee : (-10000 : ℤ) < cfg.fee_bps) :
    (0 < usd_amount → st.positions.lookup snap.token.mint = none →
      ∃ r st2, paper_buy cfg st snap usd_amount now = some (r, st2) ∧
        0 < r.price_exec ∧ 0 < r.qty_base ∧
        ∃ pos, st2.positions.lookup snap.token.mint = some pos ∧
          0 < pos.qty_base ∧ 0 < pos.avg_cost_usd) ∧
    (∀ pos0, 0 < usd_amount →
      st.positions.lookup snap.token.mint = some pos0 →
      0 ≤ pos0.qty_base → 0 ≤ pos0.avg_cost_usd →
      ∃ r st2, paper_buy cfg st snap usd_amount now = some (r, st2) ∧
        0 < r.price_exec ∧ 0 < r.qty_base ∧
        ∃ pos, st2.positions.lookup snap.token.mint = some pos ∧
          0 < pos.qty_base ∧ 0 < pos.avg_cost_usd) ∧
    (st.positions.lookup snap.token.mint = none →
      paper_buy cfg st snap 0 now = none) := by
  have hslipQ : (-10000 : ℚ) < (cfg.slippage_bps : ℚ) := by exact_mod_cast hslip
  have hfeeQ : (-10000 : ℚ) < (cfg.fee_bps : ℚ) := by exact_mod_cast hfee
  have hmul : 0 < 1 + (cfg.slippage_bps : ℚ) / 10000 := by
    have : (-1 : ℚ) < (cfg.slippage_bps : ℚ) / 10000 := by
      rw [lt_div_iff (by norm_num : (0 : ℚ) < 10000)]
      linarith
    linarith
  have hexec : 0 < calculate_execution_price cfg snap.price_usd true := by
    simp only [calculate_execution_price, if_pos]
    exact mul_pos hprice hmul
  have hfeemul : 0 < 1 + (cfg.fee_bps : ℚ) / 10000 := by
    have : (-1 : ℚ) < (cfg.fee_bps : ℚ) / 10000 := by
      rw [lt_div_iff (by norm_num : (0 : ℚ) < 10000)]
      linarith
    linarith
  refine ⟨?_, ?_, ?_⟩
  · intro husd hlook
    have hqty : 0 < usd_amount / calculate_execution_price cfg snap.price_usd true :=
      div_pos husd hexec
    have hcost : 0 < usd_amount + calculate_fee cfg usd_amount := by
      simp only [calculate_fee]
      nlinarith
    have hne : calculate_execution_price cfg snap.price_usd true ≠ 0 :=
      ne_of_gt hexec
    have hqne :
        usd_amount / calculate_execution_price cfg snap.price_usd true ≠ 0 :=
      ne_of_gt hqty
    simp only [paper_buy, execute_trade, hlook, hne, if_false, ite_false,
      if_true, ite_true, Option.map_some', hqne]
    refine ⟨_, _, rfl, hexec, hqty, _, lookup_assocSet _ _ _, ?_, ?_⟩
    · exact hqty
    · exact div_pos hcost hqty
  · intro pos0 husd hlook hq0 ha0
    have hqty : 0 < usd_amount / calculate_execution_price cfg snap.price_usd true :=
      div_pos husd hexec
    have hcost : 0 < usd_amount + calculate_fee cfg usd_amount := by
      simp only [calculate_fee]
      nlinarith
    have htot : 0 < pos0.qty_base + usd_amount / calculate_execution_price cfg snap.price_usd true := by
      linarith
    have havg : 0 < (pos0.avg_cost_usd * pos0.qty_base +
        (usd_amount + calculate_fee cfg usd_amount)) /
        (pos0.qty_base + usd_amount / calculate_execution_price cfg snap.price_usd true) := by
      apply div_pos ?_ htot
      nlinarith
    have hne : calculate_execution_price cfg snap.price_usd true ≠ 0 :=
      ne_of_gt hexec
    have hqle : ¬(usd_amount / calculate_execution_price cfg snap.price_usd true ≤ 0) :=
      not_le.mpr hqty
    have htne : pos0.qty_base +
        usd_amount / calculate_execution_price cfg snap.price_usd true ≠ 0 :=
      ne_of_gt htot
    simp only [paper_buy, execute_trade, hlook, hne, if_false, ite_false,
      if_true, ite_true, Option.map_some', VirtualPosition.add_position,
      hqle, htne]
    refine ⟨_, _, rfl, hexec, hqty, _, lookup_assocSet _ _ _, ?_, ?_⟩
    · exact htot
    · exact havg
  · intro hlook
    have hne : calculate_execution_price cfg snap.price_usd true ≠ 0 :=
      ne_of_gt hexec
    simp [paper_buy, execute_trade, hlook, hne, zero_div]

/-- C10 (witness): a 50 USD buy of `snapA` with the default paper
configuration completes with a positive position. -/
theorem C10_paper_buy_safe_witness :
    ∃ r st2, paper_buy cfgPaper ⟨[], []⟩ snapA 50 0 = some (r, st2) ∧
      0 < r.price_exec ∧ 0 < r.qty_base ∧
      ∃ pos, st2.positions.lookup snapA.token.mint = some pos ∧
        0 < pos.qty_base ∧ 0 < pos.avg_cost_usd :=
  (C10_paper_buy_safe cfgPaper ⟨[], []⟩ snapA 50 0
      (by norm_num [snapA]) (by norm_num [cfgPaper]) (by norm_num [cfgPaper])).1
    (by norm_num) rfl

/-! ### Serialization round-trip (strategy.py `to_dict` / `from_dict`) -/

/-- Helper: reading back a rendered decimal digit. -/
theorem readDigit_digitChar : ∀ k < 10, readDigit (digitChar k) = k := by
  decide

/-- Helper: rendered decimal digits satisfy `Char.isDigit`. -/
theorem isDigit_digitChar : ∀ k < 10, (digitChar k).isDigit = true := by
  decide

/-- Helper: parsing back a two-digit zero-padded group. -/
theorem read2_pad (n : ℕ) (h : n < 100) :
    read2 (digitChar (n / 10 % 10)) (digitChar (n % 10)) = n := by
  unfold read2
  rw [readDigit_digitChar _ (Nat.mod_lt _ (by norm_num)),
    readDigit_digitChar _ (Nat.mod_lt _ (by norm_num))]
  omega

/-- Helper: parsing back a four-digit zero-padded group. -/
theorem read4_pad (n : ℕ) (h : n < 10000) :
    read4 (digitChar (n / 1000 % 10)) (digitChar (n / 100 % 10))
      (digitChar (n / 10 % 10)) (digitChar (n % 10)) = n := by
  unfold read4
  rw [readDigit_digitChar _ (Nat.mod_lt _ (by norm_num)),
    readDigit_digitChar _ (Nat.mod_lt _ (by norm_num)),
    readDigit_digitChar _ (Nat.mod_lt _ (by norm_num)),
    readDigit_digitChar _ (Nat.mod_lt _ (by norm_num))]
  omega

/-- Helper: parsing back a six-digit zero-padded group. -/
theorem read6_pad (n : ℕ) (h : n < 1000000) :
    read6 (digitChar (n / 100000 % 10)) (digitChar (n / 10000 % 10))
      (digitChar (n / 1000 % 10)) (digitChar (n / 100 % 10))
      (digitChar (n / 10 % 10)) (digitChar (n % 10)) = n := by
  unfold read6
  rw [readDigit_digitChar _ (Nat.mod_lt _ (by norm_num)),
    readDigit_digitChar _ (Nat.mod_lt _ (by norm_num)),
    readDigit_digitChar _ (Nat.mod_lt _ (by norm_num)),
    readDigit_digitChar _ (Nat.mod_lt _ (by norm_num)),
    readDigit_digitChar _ (Nat.mod_lt _ (by norm_num)),
    readDigit_digitChar _ (Nat.mod_lt _ (by norm_num))]
  omega

/-- Helper: `fromisoformat` inverts `isoformat` on valid datetimes. -/
theorem fromisoformat_isoformat (t : DateTime) (h : t.Valid) :
    DateTime.fromisoformat t.isoformat = some t := by
  obtain ⟨y, mo, d, hr, mi, se, u⟩ := t
  obtain ⟨hy, hm1, hm2, hd1, hd2, hh, hmi, hs, hu⟩ := h
  dsimp only at hy hm1 hm2 hd1 hd2 hh hmi hs hu
  show fromisoformatChars (DateTime.isoformatChars ⟨y, mo, d, hr, mi, se, u⟩) =
    some ⟨y, mo, d, hr, mi, se, u⟩
  by_cases hmicro : u = 0
  · have hlist : DateTime.isoformatChars ⟨y, mo, d, hr, mi, se, u⟩ =
        [digitChar (y / 1000 % 10), digitChar (y / 100 % 10),
         digitChar (y / 10 % 10), digitChar (y % 10), '-',
         digitChar (mo / 10 % 10), digitChar (mo % 10), '-',
         digitChar (d / 10 % 10), digitChar (d % 10), 'T',
         digitChar (hr / 10 % 10), digitChar (hr % 10), ':',
         digitChar (mi / 10 % 10), digitChar (mi % 10), ':',
         digitChar (se / 10 % 10), digitChar (se % 10)] := by
      simp [DateTime.isoformatChars, pad4, pad2, hmicro]
    rw [hlist]
    simp only [fromisoformatChars]
    rw [if_pos (by
      repeat' apply And.intro
      all_goals first
        | trivial
        | exact isDigit_digitChar _ (Nat.mod_lt _ (by norm_num)))]
    rw [read4_pad y hy, read2_pad mo (by omega), read2_pad d (by omega),
      read2_pad hr (by omega), read2_pad mi (by omega),
      read2_pad se (by omega), hmicro]
  · have hlist : DateTime.isoformatChars ⟨y, mo, d, hr, mi, se, u⟩ =
        [digitChar (y / 1000 % 10), digitChar (y / 100 % 10),
         digitChar (y / 10 % 10), digitChar (y % 10), '-',
         digitChar (mo / 10 % 10), digitChar (mo % 10), '-',
         digitChar (d / 10 % 10), digitChar (d % 10), 'T',
         digitChar (hr / 10 % 10), digitChar (hr % 10), ':',
         digitChar (mi / 10 % 10), digitChar (mi % 10), ':',
         digitChar (se / 10 % 10), digitChar (se % 10), '.',
         digitChar (u / 100000 % 10), digitChar (u / 10000 % 10),
         digitChar (u / 1000 % 10), digitChar (u / 100 % 10),
         digitChar (u / 10 % 10), digitChar (u % 10)] := by
      simp [DateTime.isoformatChars, pad4, pad2, pad6, hmicro]
    rw [hlist]
    simp only [fromisoformatChars]
    rw [if_pos (by
      repeat' apply And.intro
      all_goals first
        | trivial
        | exact isDigit_digitChar _ (Nat.mod_lt _ (by norm_num)))]
    rw [read4_pad y hy, read2_pad mo (by omega), read2_pad d (by omega),
      read2_pad hr (by omega), read2_pad mi (by omega),
      read2_pad se (by omega), read6_pad u hu]

/-- Helper: `partial_sells or []` is the identity on list values. -/
theorem listOrNil_eq (xs : List PartialSell) : listOrNil xs = xs := by
  unfold listOrNil
  split_ifs with h
  · exact (List.isEmpty_iff.mp h).symm
  · rfl

/-- C9: `PositionState.from_dict (p.to_dict)` restores a value equal to `p`
in every field — `token_mint`, `entry_price_usd`, `quantity`, `entry_time`
(serialized as an ISO-8601 string and parsed back), `high_water_mark`,
`trailing_stop_price`, and `partial_sells` in the same order — for every
position whose entry time is a valid calendar datetime. -/
theorem C9_position_state_roundtrip (p : PositionState)
    (h : p.entry_time.Valid) :
    PositionState.from_dict (PositionState.to_dict p) = some p := by
  obtain ⟨tm, epx, q, et, hwm, tsp, ps⟩ := p
  unfold PositionState.to_dict PositionState.from_dict
  rw [fromisoformat_isoformat et h]
  simp only [Option.map_some', listOrNil_eq]

/-- C9 (witness): the round trip evaluated on a concrete position. -/
theorem C9_position_state_roundtrip_witness :
    PositionState.from_dict (PositionState.to_dict posTP) = some posTP :=
  C9_position_state_roundtrip posTP (by decide)

end TradingBot
